import Mathlib

/-!
Verification of the procedural terrain / starfield streaming engine embedded in
`src/components/TerrainBackground.tsx`.

The development shallowly embeds the engine logic:

* chunk-grid math (`generateSpiralOrder`, the circular required-chunk set of
  `updateVisibleChunks`);
* the simplex-style noise generator (`TerrainNoiseGenerator.generateNoise`,
  `generateTerrainNoise`) with its quantized-key memoization cache, stated over an
  arbitrary linear ordered field with a floor (JS numbers are modelled as exact
  field elements; the constant `Math.sqrt(3)` becomes an explicit parameter
  `sqrt3`, instantiated with `Real.sqrt 3` where its value matters);
* the configuration / preferences layer (`handleTerrainConfigChange`,
  `savePreferences`, the preference-loading effect);
* the chunk streaming state machine (generation queues, pending set, live chunk
  maps, `generateChunkBatch`, `updateVisibleChunks`, `restartTerrain`), with the
  React `isInitialized` state split into the live state and the value captured by
  the animation-loop closure (the closure created inside the effect only ever sees
  the snapshot of `isInitialized` taken when the effect ran);
* the camera-threshold section of the `animate` loop, instrumented with counters
  for the number of `updateVisibleChunks` / `updateVisibleStarChunks` calls.
-/

namespace TerrainBG

/-! ## ChunkGrid: spiral enumeration (`generateSpiralOrder`, lines 671-701) -/

/-- One concentric square layer of the spiral, in the order the source pushes it:
top edge left→right (`x = -layer .. layer` at `z = -layer`), right edge
top→bottom (`z = -layer+1 .. layer` at `x = layer`), bottom edge right→left
(`x = layer-1 .. -layer` at `z = layer`), left edge bottom→top
(`z = layer-1 .. -layer+1` at `x = -layer`). -/
def spiralLayer (layer : ℕ) : List (ℤ × ℤ) :=
  ((List.range (2 * layer + 1)).map (fun (i : ℕ) => ((i : ℤ) - layer, -(layer : ℤ)))) ++
  ((List.range (2 * layer)).map (fun (i : ℕ) => ((layer : ℤ), (i : ℤ) - layer + 1))) ++
  ((List.range (2 * layer)).map (fun (i : ℕ) => ((layer : ℤ) - 1 - i, (layer : ℤ)))) ++
  ((List.range (2 * layer - 1)).map (fun (i : ℕ) => (-(layer : ℤ), (layer : ℤ) - 1 - i)))

/-- `generateSpiralOrder`: the center point `(0,0)` first, then the layers
`1 .. renderDistance` from the inside out. -/
def generateSpiralOrder (renderDistance : ℕ) : List (ℤ × ℤ) :=
  (0, 0) :: (List.range renderDistance).flatMap (fun k => spiralLayer (k + 1))

/-- Chebyshev distance of an offset from the origin. -/
def chebDist (p : ℤ × ℤ) : ℕ := max p.1.natAbs p.2.natAbs

theorem spiralLayer_length (k : ℕ) : (spiralLayer (k + 1)).length = 8 * (k + 1) := by
  simp only [spiralLayer, List.length_append, List.length_map, List.length_range]
  omega

theorem generateSpiralOrder_succ (n : ℕ) :
    generateSpiralOrder (n + 1) = generateSpiralOrder n ++ spiralLayer (n + 1) := by
  simp [generateSpiralOrder, List.range_succ]

theorem generateSpiralOrder_length (n : ℕ) :
    (generateSpiralOrder n).length = (2 * n + 1) ^ 2 := by
  induction n with
  | zero => rfl
  | succ m ih =>
      rw [generateSpiralOrder_succ, List.length_append, ih, spiralLayer_length]
      ring

theorem chebDist_spiralLayer (k : ℕ) (p : ℤ × ℤ) (hp : p ∈ spiralLayer (k + 1)) :
    chebDist p = k + 1 := by
  simp only [spiralLayer, List.mem_append, List.mem_map, List.mem_range] at hp
  rcases hp with ((⟨i, hi, he⟩ | ⟨i, hi, he⟩) | ⟨i, hi, he⟩) | ⟨i, hi, he⟩ <;>
    subst he <;> simp only [chebDist] <;> omega

/-! ## ChunkGrid: circular required set (`updateVisibleChunks`, lines 798-849) -/

/-- Offsets `-renderDistance .. renderDistance` in the order of the source loops. -/
def offsetRange (renderDistance : ℕ) : List ℤ :=
  (List.range (2 * renderDistance + 1)).map (fun (i : ℕ) => (i : ℤ) - renderDistance)

/-- The required chunk coordinates around a camera chunk: the double loop of
`updateVisibleChunks` keeps exactly the offsets with squared distance at most
`renderDistance²` (circular footprint, "no corner chunks"). -/
def requiredChunks (cameraChunkX cameraChunkZ : ℤ) (renderDistance : ℕ) :
    List (ℤ × ℤ) :=
  (offsetRange renderDistance).flatMap (fun offsetX =>
    (offsetRange renderDistance).filterMap (fun offsetZ =>
      if offsetX * offsetX + offsetZ * offsetZ ≤
          (renderDistance : ℤ) * renderDistance then
        some (cameraChunkX + offsetX, cameraChunkZ + offsetZ)
      else none))

/-! ## Configuration and preferences layer (lines 14-34, 225-295, 384-549) -/

/-- `TerrainConfig` (source lines 14-34); JS numbers are modelled as exact
rationals, `moveSpeed` (a `THREE.Vector3`) as a triple. -/
structure TerrainConfig where
  chunkSize : ℚ
  segments : ℚ
  renderDistance : ℚ
  overlap : ℚ
  updateThreshold : ℚ
  heightScale : ℚ
  noiseScale : ℚ
  fogNear : ℚ
  fogFar : ℚ
  cameraHeight : ℚ
  cameraDistance : ℚ
  moveSpeed : ℚ × ℚ × ℚ
  initialChunks : ℚ
  chunkGenerationBatchSize : ℚ
  wireframe : Bool
  wireframeOpacity : ℚ
  antialias : Bool
  pixelRatio : ℚ
  terrainColor : String
deriving DecidableEq

/-- `DEFAULT_STAR_CONFIG`'s shape (source lines 286-295). -/
structure StarConfig where
  chunkSize : ℚ
  renderDistance : ℚ
  starsPerChunk : ℚ
  chunkGenerationBatchSize : ℚ
  yRange : ℚ × ℚ
  enabled : Bool
  starSize : ℚ
  starOpacity : ℚ
deriving DecidableEq

/-- `DEFAULT_TERRAIN_CONFIG` (source lines 225-245). -/
def DEFAULT_TERRAIN_CONFIG : TerrainConfig :=
  { chunkSize := 30, segments := 30, renderDistance := 2, overlap := 1,
    updateThreshold := 10, heightScale := 6, noiseScale := 2/100,
    fogNear := 15, fogFar := 100, cameraHeight := 12, cameraDistance := 18,
    moveSpeed := (5/1000, 0, 3/1000), initialChunks := 1,
    chunkGenerationBatchSize := 1, wireframe := true, wireframeOpacity := 4/10,
    antialias := false, pixelRatio := 1, terrainColor := "#ffffff" }

/-- `DEFAULT_STAR_CONFIG` (source lines 286-295). -/
def DEFAULT_STAR_CONFIG : StarConfig :=
  { chunkSize := 50, renderDistance := 2, starsPerChunk := 50,
    chunkGenerationBatchSize := 1, yRange := (5, 10), enabled := true,
    starSize := 3/10, starOpacity := 8/10 }

/-- A terrain-configuration mutation: the `(property, value)` pair passed to
`handleTerrainConfigChange`, with each property carrying its typed value
(the source uses a string property name and an untyped value). -/
inductive TerrainProp where
  | chunkSize (v : ℚ)
  | segments (v : ℚ)
  | renderDistance (v : ℚ)
  | overlap (v : ℚ)
  | updateThreshold (v : ℚ)
  | heightScale (v : ℚ)
  | noiseScale (v : ℚ)
  | fogNear (v : ℚ)
  | fogFar (v : ℚ)
  | cameraHeight (v : ℚ)
  | cameraDistance (v : ℚ)
  | moveSpeed (v : ℚ × ℚ × ℚ)
  | initialChunks (v : ℚ)
  | chunkGenerationBatchSize (v : ℚ)
  | wireframe (v : Bool)
  | wireframeOpacity (v : ℚ)
  | antialias (v : Bool)
  | pixelRatio (v : ℚ)
  | terrainColor (v : String)

/-- The spread `{ ...prev, [property]: value }` of `handleTerrainConfigChange`:
the named field is replaced, all other fields are kept. -/
def setTerrainProp (c : TerrainConfig) : TerrainProp → TerrainConfig
  | .chunkSize v => { c with chunkSize := v }
  | .segments v => { c with segments := v }
  | .renderDistance v => { c with renderDistance := v }
  | .overlap v => { c with overlap := v }
  | .updateThreshold v => { c with updateThreshold := v }
  | .heightScale v => { c with heightScale := v }
  | .noiseScale v => { c with noiseScale := v }
  | .fogNear v => { c with fogNear := v }
  | .fogFar v => { c with fogFar := v }
  | .cameraHeight v => { c with cameraHeight := v }
  | .cameraDistance v => { c with cameraDistance := v }
  | .moveSpeed v => { c with moveSpeed := v }
  | .initialChunks v => { c with initialChunks := v }
  | .chunkGenerationBatchSize v => { c with chunkGenerationBatchSize := v }
  | .wireframe v => { c with wireframe := v }
  | .wireframeOpacity v => { c with wireframeOpacity := v }
  | .antialias v => { c with antialias := v }
  | .pixelRatio v => { c with pixelRatio := v }
  | .terrainColor v => { c with terrainColor := v }

/-- The property-name string of a mutation, as passed from the UI layer. -/
def terrainPropName : TerrainProp → String
  | .chunkSize _ => "chunkSize"
  | .segments _ => "segments"
  | .renderDistance _ => "renderDistance"
  | .overlap _ => "overlap"
  | .updateThreshold _ => "updateThreshold"
  | .heightScale _ => "heightScale"
  | .noiseScale _ => "noiseScale"
  | .fogNear _ => "fogNear"
  | .fogFar _ => "fogFar"
  | .cameraHeight _ => "cameraHeight"
  | .cameraDistance _ => "cameraDistance"
  | .moveSpeed _ => "moveSpeed"
  | .initialChunks _ => "initialChunks"
  | .chunkGenerationBatchSize _ => "chunkGenerationBatchSize"
  | .wireframe _ => "wireframe"
  | .wireframeOpacity _ => "wireframeOpacity"
  | .antialias _ => "antialias"
  | .pixelRatio _ => "pixelRatio"
  | .terrainColor _ => "terrainColor"

/-- The inline allow-list of restart-requiring terrain properties
(`handleTerrainConfigChange`, source lines 479-496). -/
def restartRequiringProps : List String :=
  ["antialias", "pixelRatio", "segments", "renderDistance", "chunkSize",
   "overlap", "heightScale", "noiseScale", "fogNear", "fogFar", "moveSpeed",
   "initialChunks", "chunkGenerationBatchSize"]

/-- `terrainConfigWithoutCamera` (source lines 396-414): the persisted terrain
subset, with `cameraHeight` and `cameraDistance` omitted. -/
structure SavedTerrainConfig where
  chunkSize : ℚ
  segments : ℚ
  renderDistance : ℚ
  overlap : ℚ
  updateThreshold : ℚ
  heightScale : ℚ
  noiseScale : ℚ
  fogNear : ℚ
  fogFar : ℚ
  moveSpeed : ℚ × ℚ × ℚ
  initialChunks : ℚ
  chunkGenerationBatchSize : ℚ
  wireframe : Bool
  wireframeOpacity : ℚ
  antialias : Bool
  pixelRatio : ℚ
  terrainColor : String
deriving DecidableEq

/-- `prefsToSave` (source lines 416-420): the JSON object written to storage. -/
structure SavedPrefs where
  terrainConfig : SavedTerrainConfig
  starConfig : StarConfig
  currentQuality : String
deriving DecidableEq

/-- The React state touched by the configuration layer, plus the storage slot
written by `savePreferences` (the `localStorage` entry). -/
structure SettingsState where
  terrainConfig : TerrainConfig
  starConfig : StarConfig
  currentQuality : String
  needsRestart : Bool
  savedPrefs : Option SavedPrefs
deriving DecidableEq

/-- `savePreferences` (source lines 384-427) with its arguments already
resolved: the call sites pass either an explicit override or (via the
truthy `||` fallback) the current state value. -/
def savePreferences (t : TerrainConfig) (s : StarConfig) (q : String) : SavedPrefs :=
  { terrainConfig :=
      { chunkSize := t.chunkSize, segments := t.segments,
        renderDistance := t.renderDistance, overlap := t.overlap,
        updateThreshold := t.updateThreshold, heightScale := t.heightScale,
        noiseScale := t.noiseScale, fogNear := t.fogNear, fogFar := t.fogFar,
        moveSpeed := t.moveSpeed, initialChunks := t.initialChunks,
        chunkGenerationBatchSize := t.chunkGenerationBatchSize,
        wireframe := t.wireframe, wireframeOpacity := t.wireframeOpacity,
        antialias := t.antialias, pixelRatio := t.pixelRatio,
        terrainColor := t.terrainColor },
    starConfig := s, currentQuality := q }

/-- `handleTerrainConfigChange` (source lines 475-511): apply the mutation
unconditionally, mark quality "custom" and flag a restart for allow-listed
properties, and save preferences with `currentQuality: 'custom'` always. -/
def handleTerrainConfigChange (st : SettingsState) (p : TerrainProp) : SettingsState :=
  let updated := setTerrainProp st.terrainConfig p
  let restartRequired := terrainPropName p ∈ restartRequiringProps
  { terrainConfig := updated,
    starConfig := st.starConfig,
    currentQuality := if restartRequired then "custom" else st.currentQuality,
    needsRestart := st.needsRestart || restartRequired,
    savedPrefs := some (savePreferences updated st.starConfig "custom") }

/-- The preference-loading effect (source lines 431-472) applied to a present,
well-formed stored object: every saved field is merged over the previous
config, the camera fields are overridden with the defaults, and the quality
name is taken when truthy (non-empty). -/
def loadPreferences (prefs : SavedPrefs) (st : SettingsState) : SettingsState :=
  { st with
    terrainConfig :=
      { st.terrainConfig with
        chunkSize := prefs.terrainConfig.chunkSize,
        segments := prefs.terrainConfig.segments,
        renderDistance := prefs.terrainConfig.renderDistance,
        overlap := prefs.terrainConfig.overlap,
        updateThreshold := prefs.terrainConfig.updateThreshold,
        heightScale := prefs.terrainConfig.heightScale,
        noiseScale := prefs.terrainConfig.noiseScale,
        fogNear := prefs.terrainConfig.fogNear,
        fogFar := prefs.terrainConfig.fogFar,
        moveSpeed := prefs.terrainConfig.moveSpeed,
        initialChunks := prefs.terrainConfig.initialChunks,
        chunkGenerationBatchSize := prefs.terrainConfig.chunkGenerationBatchSize,
        wireframe := prefs.terrainConfig.wireframe,
        wireframeOpacity := prefs.terrainConfig.wireframeOpacity,
        antialias := prefs.terrainConfig.antialias,
        pixelRatio := prefs.terrainConfig.pixelRatio,
        terrainColor := prefs.terrainConfig.terrainColor,
        cameraHeight := DEFAULT_TERRAIN_CONFIG.cameraHeight,
        cameraDistance := DEFAULT_TERRAIN_CONFIG.cameraDistance },
    starConfig := prefs.starConfig,
    currentQuality := if prefs.currentQuality ≠ "" then prefs.currentQuality
                      else st.currentQuality }

/-- The initial settings state (source lines 341-347): defaults, quality
"medium", no restart pending, nothing saved yet. -/
def initialSettingsState : SettingsState :=
  { terrainConfig := DEFAULT_TERRAIN_CONFIG, starConfig := DEFAULT_STAR_CONFIG,
    currentQuality := "medium", needsRestart := false, savedPrefs := none }

/-! ## Camera-threshold section of the animation loop (lines 1089-1118) -/

/-- The mutable state read and written by the chunk-update section of
`animate`: the camera target position (x/z), `lastChunkUpdatePosition`, the
last terrain and star chunk coordinates, and instrumentation counters for how
often `updateVisibleChunks` / `updateVisibleStarChunks` were invoked. -/
structure AnimState where
  targetX : ℚ
  targetZ : ℚ
  lastUpdateX : ℚ
  lastUpdateZ : ℚ
  lastChunkX : ℤ
  lastChunkZ : ℤ
  lastStarChunkX : ℤ
  lastStarChunkZ : ℤ
  terrainUpdates : ℕ
  starUpdates : ℕ
deriving DecidableEq

/-- Source lines 1089-1118: if the absolute x- or z-displacement of the camera
target since the last chunk update exceeds `updateThreshold`, sync
`lastChunkUpdatePosition` to the target, then call `updateVisibleChunks`
(counted in `terrainUpdates`) only when the terrain chunk coordinate changed,
and `updateVisibleStarChunks` (counted in `starUpdates`) only when the star
chunk coordinate changed. -/
def animTick (updateThreshold chunkSize starChunkSize : ℚ) (s : AnimState) : AnimState :=
  let dx := |s.targetX - s.lastUpdateX|
  let dz := |s.targetZ - s.lastUpdateZ|
  if updateThreshold < dx ∨ updateThreshold < dz then
    let cameraChunkX : ℤ := ⌊s.targetX / chunkSize⌋
    let cameraChunkZ : ℤ := ⌊s.targetZ / chunkSize⌋
    let starChunkX : ℤ := ⌊s.targetX / starChunkSize⌋
    let starChunkZ : ℤ := ⌊s.targetZ / starChunkSize⌋
    let s1 : AnimState := { s with lastUpdateX := s.targetX, lastUpdateZ := s.targetZ }
    let s2 : AnimState :=
      if cameraChunkX ≠ s.lastChunkX ∨ cameraChunkZ ≠ s.lastChunkZ then
        { s1 with terrainUpdates := s1.terrainUpdates + 1,
                  lastChunkX := cameraChunkX, lastChunkZ := cameraChunkZ }
      else s1
    if starChunkX ≠ s.lastStarChunkX ∨ starChunkZ ≠ s.lastStarChunkZ then
      { s2 with starUpdates := s2.starUpdates + 1,
                lastStarChunkX := starChunkX, lastStarChunkZ := starChunkZ }
    else s2
  else s

/-- A camera target displaced 11 units on the x axis (from 0 to 11) since the
last chunk update, with `updateThreshold = 10`, `chunkSize = 30`,
star `chunkSize = 50`, both last chunk coordinates `(0,0)`. -/
def c3CounterState : AnimState :=
  { targetX := 11, targetZ := 0, lastUpdateX := 0, lastUpdateZ := 0,
    lastChunkX := 0, lastChunkZ := 0, lastStarChunkX := 0, lastStarChunkZ := 0,
    terrainUpdates := 0, starUpdates := 0 }

/-- A camera target displaced 11 units on the x axis (from 25 to 36), crossing
the terrain chunk boundary at 30. -/
def c3WitState : AnimState :=
  { targetX := 36, targetZ := 0, lastUpdateX := 25, lastUpdateZ := 0,
    lastChunkX := 0, lastChunkZ := 0, lastStarChunkX := 0, lastStarChunkZ := 0,
    terrainUpdates := 5, starUpdates := 0 }

/-! ## Chunk streaming state machine (lines 625-790, 798-849, 926-1039, 1140-1190)

Chunk keys: the source keys its maps and sets with the string `"x,z"`
(`getChunkKey`), which decodes uniquely to the integer pair, so coordinates are
modelled as pairs directly.  `terrainChunks` / `starChunksMap` are modelled by
their key sets (lists of distinct coordinates); the geometry/noise payload of a
chunk does not interact with the queue bookkeeping.  The React `isInitialized`
state is split into `initState` (the live React state written by
`setIsInitialized`) and `initSnap` (the value of `isInitialized` captured by the
effect closure that contains `animate`/`generateChunkBatch`; it is refreshed
only when the effect re-runs, i.e. on restart). -/

abbrev Coord := ℤ × ℤ

/-- The engine parameters drawn from the configuration by the streaming code,
used as counts by the loops. -/
structure EngineParams where
  renderDistance : ℕ
  chunkGenerationBatchSize : ℕ
  initialChunks : ℕ
  starRenderDistance : ℕ
  starChunkGenerationBatchSize : ℕ

/-- The streaming state: terrain generation queue (`chunkGenerationQueue`),
pending-set (`pendingChunks`), live terrain chunk keys (`terrainChunks`),
`generatedChunks` counter, star queue (`starChunkGenerationQueue`), live star
chunk keys (`starChunksMap`), the captured and live `isInitialized` values, and
a counter of `onLoad` invocations. -/
structure EngineState where
  queue : List Coord
  pending : List Coord
  chunks : List Coord
  generated : ℕ
  starQueue : List Coord
  starChunks : List Coord
  initSnap : Bool
  initState : Bool
  onLoadCount : ℕ
deriving DecidableEq

/-- `getTerrainChunk` (source lines 709-765): return early when the chunk is
live; otherwise drop it from the pending set, register the new chunk and bump
the generated counter. -/
def getTerrainChunk (c : Coord) (s : EngineState) : EngineState :=
  if c ∈ s.chunks then s
  else { s with pending := s.pending.erase c,
                chunks := c :: s.chunks,
                generated := s.generated + 1 }

/-- One `chunkGenerationQueue.current.shift()` followed by `getTerrainChunk`
(the body of the batch loop, source lines 777-783). -/
def dequeueOneTerrain (s : EngineState) : EngineState :=
  match s.queue with
  | [] => s
  | c :: rest => getTerrainChunk c { s with queue := rest }

/-- The batch loop of `generateChunkBatch`, processing `n` queue entries. -/
def processTerrainBatch : ℕ → EngineState → EngineState
  | 0, s => s
  | n + 1, s => processTerrainBatch n (dequeueOneTerrain s)

/-- `generateChunkBatch` (source lines 768-790): process up to
`chunkGenerationBatchSize` entries, then, when the captured `isInitialized`
snapshot (`initSnap`) is still false and enough chunks were generated, set the
React state and fire `onLoad`. -/
def generateChunkBatch (P : EngineParams) (s : EngineState) : EngineState :=
  let batchSize := min P.chunkGenerationBatchSize s.queue.length
  if batchSize = 0 then s
  else
    let s1 := processTerrainBatch batchSize s
    if !s1.initSnap && P.initialChunks ≤ s1.generated then
      { s1 with initState := true, onLoadCount := s1.onLoadCount + 1 }
    else s1

/-- `getStarChunk` (source lines 856-892), reduced to its key bookkeeping. -/
def getStarChunk (c : Coord) (s : EngineState) : EngineState :=
  if c ∈ s.starChunks then s
  else { s with starChunks := c :: s.starChunks }

/-- One star-queue shift followed by `getStarChunk` (source lines 961-966). -/
def dequeueOneStar (s : EngineState) : EngineState :=
  match s.starQueue with
  | [] => s
  | c :: rest => getStarChunk c { s with starQueue := rest }

/-- The batch loop of `generateStarChunkBatch`. -/
def processStarBatch : ℕ → EngineState → EngineState
  | 0, s => s
  | n + 1, s => processStarBatch n (dequeueOneStar s)

/-- `generateStarChunkBatch` (source lines 953-968). -/
def generateStarChunkBatch (P : EngineParams) (s : EngineState) : EngineState :=
  let batchSize := min P.starChunkGenerationBatchSize s.starQueue.length
  if batchSize = 0 then s else processStarBatch batchSize s

/-- The enqueue guard shared by `initializeChunkQueue` and
`updateVisibleChunks` (source lines 659-663 and 827-831): push the coordinate
and record it pending only when it is neither live nor pending. -/
def enqueueNew (chunks : List Coord) (qp : List Coord × List Coord) (c : Coord) :
    List Coord × List Coord :=
  if c ∉ chunks ∧ c ∉ qp.2 then (qp.1 ++ [c], c :: qp.2) else qp

/-- The star enqueue guard of `updateVisibleStarChunks` (source lines
1003-1013): the coordinate must not be live, not already in the (growing)
queue, and not in the per-call local pending set. -/
def enqueueNewStar (starChunks : List Coord) (qp : List Coord × List Coord) (c : Coord) :
    List Coord × List Coord :=
  if c ∉ starChunks ∧ c ∉ qp.1 ∧ c ∉ qp.2 then (qp.1 ++ [c], c :: qp.2) else qp

/-- `initializeChunkQueue` (source lines 642-665): clear queue and pending set,
then walk the spiral around the camera chunk. -/
def initializeChunkQueue (P : EngineParams) (camX camZ : ℤ) (s : EngineState) :
    EngineState :=
  let coords := (generateSpiralOrder P.renderDistance).map
    (fun o => (camX + o.1, camZ + o.2))
  let qp := coords.foldl (enqueueNew s.chunks) ([], [])
  { s with queue := qp.1, pending := qp.2 }

/-- `updateVisibleChunks` (source lines 798-849): enqueue the missing required
chunks (the double loop in row order), then evict every live chunk outside the
required set.  The periodic noise-cache clearing at the end touches only the
noise cache. -/
def updateVisibleChunks (P : EngineParams) (camX camZ : ℤ) (s : EngineState) :
    EngineState :=
  let required := requiredChunks camX camZ P.renderDistance
  let qp := required.foldl (enqueueNew s.chunks) (s.queue, s.pending)
  { s with queue := qp.1, pending := qp.2,
           chunks := s.chunks.filter (fun c => c ∈ required) }

/-- `initializeStarChunkQueue` (source lines 926-948): fresh queue and a local
pending set, walking the spiral. -/
def initializeStarChunkQueue (P : EngineParams) (camX camZ : ℤ) (s : EngineState) :
    EngineState :=
  let coords := (generateSpiralOrder P.starRenderDistance).map
    (fun o => (camX + o.1, camZ + o.2))
  let qp := coords.foldl (enqueueNew s.starChunks) ([], [])
  { s with starQueue := qp.1 }

/-- `updateVisibleStarChunks` (source lines 973-1039): enqueue missing required
star chunks (guarding against the live map, the current queue and a local
pending set), then evict star chunks outside the required set. -/
def updateVisibleStarChunks (P : EngineParams) (camX camZ : ℤ) (s : EngineState) :
    EngineState :=
  let required := requiredChunks camX camZ P.starRenderDistance
  let qp := required.foldl (enqueueNewStar s.starChunks) (s.starQueue, [])
  { s with starQueue := qp.1,
           starChunks := s.starChunks.filter (fun c => c ∈ required) }

/-- `restartTerrain` (source lines 1140-1190): dispose all terrain and star
chunks, clear both queues, reset the generated counter, then reseed both queues
around the camera chunk.  Setting `needsRestart` re-runs the scene effect, so
the animation closure re-captures the current `isInitialized` React state
(`initSnap := s.initState`). -/
def restartTerrain (P : EngineParams) (camX camZ : ℤ) (s : EngineState) : EngineState :=
  let s0 : EngineState :=
    { s with chunks := [], starChunks := [], starQueue := [],
             generated := 0, queue := [], initSnap := s.initState }
  initializeStarChunkQueue P camX camZ (initializeChunkQueue P camX camZ s0)

/-- The operations that touch the streaming state: the two required-set
recomputations, the per-frame generation dispatch of `animate` (source lines
1076-1081: terrain batches strictly before star batches), and a restart. -/
inductive EngineOp where
  | updateVisible (camX camZ : ℤ)
  | updateVisibleStars (camX camZ : ℤ)
  | generate
  | restart (camX camZ : ℤ)

/-- Apply one operation to the streaming state. -/
def engineStep (P : EngineParams) (s : EngineState) : EngineOp → EngineState
  | .updateVisible camX camZ => updateVisibleChunks P camX camZ s
  | .updateVisibleStars camX camZ => updateVisibleStarChunks P camX camZ s
  | .generate =>
      if s.queue ≠ [] then generateChunkBatch P s
      else if s.starQueue ≠ [] then generateStarChunkBatch P s
      else s
  | .restart camX camZ => restartTerrain P camX camZ s

/-- Run a sequence of operations. -/
def engineRun (P : EngineParams) (ops : List EngineOp) (s : EngineState) : EngineState :=
  ops.foldl (engineStep P) s

/-- The state right after the scene effect initializes both queues (source
lines 1057-1059), from the empty mount state. -/
def initialEngineState (P : EngineParams) (camX camZ : ℤ) : EngineState :=
  initializeStarChunkQueue P camX camZ
    (initializeChunkQueue P camX camZ
      { queue := [], pending := [], chunks := [], generated := 0,
        starQueue := [], starChunks := [], initSnap := false,
        initState := false, onLoadCount := 0 })

/-- The queue/live-set invariant of the engine, together with the auxiliary
fact that `pendingChunks` mirrors the queue contents. -/
def FullInv (s : EngineState) : Prop :=
  s.queue.Nodup ∧ (∀ c ∈ s.queue, c ∉ s.chunks) ∧
  s.pending.Nodup ∧ (∀ c, c ∈ s.pending ↔ c ∈ s.queue) ∧
  s.starQueue.Nodup ∧ (∀ c ∈ s.starQueue, c ∉ s.starChunks)

theorem enqueueNew_fold_inv (chunks : List Coord) (l : List Coord) (q p : List Coord)
    (hq : q.Nodup) (hp : p.Nodup) (hqc : ∀ c ∈ q, c ∉ chunks)
    (hpq : ∀ c, c ∈ p ↔ c ∈ q) :
    (l.foldl (enqueueNew chunks) (q, p)).1.Nodup ∧
    (l.foldl (enqueueNew chunks) (q, p)).2.Nodup ∧
    (∀ c ∈ (l.foldl (enqueueNew chunks) (q, p)).1, c ∉ chunks) ∧
    (∀ c, c ∈ (l.foldl (enqueueNew chunks) (q, p)).2 ↔
      c ∈ (l.foldl (enqueueNew chunks) (q, p)).1) := by
  induction l generalizing q p with
  | nil => exact ⟨hq, hp, hqc, hpq⟩
  | cons c t ih =>
      simp only [List.foldl_cons]
      by_cases hcond : c ∉ chunks ∧ c ∉ p
      · have hcq : c ∉ q := fun h => hcond.2 ((hpq c).mpr h)
        rw [show enqueueNew chunks (q, p) c = (q ++ [c], c :: p) by
          simp [enqueueNew, hcond]]
        refine ih (q ++ [c]) (c :: p) ?_ ?_ ?_ ?_
        · simp [List.nodup_append, hq, hcq]
        · simp [List.nodup_cons, hp, fun h => hcond.2 h]
        · intro d hd
          rcases List.mem_append.mp hd with hd | hd
          · exact hqc d hd
          · rw [List.mem_singleton] at hd; subst hd; exact hcond.1
        · intro d
          simp only [List.mem_cons, List.mem_append, List.mem_singleton,
            List.not_mem_nil, or_false, hpq d]
          exact Or.comm
      · rw [show enqueueNew chunks (q, p) c = (q, p) by simp [enqueueNew, hcond]]
        exact ih q p hq hp hqc hpq

theorem enqueueNewStar_fold_inv (schunks : List Coord) (l : List Coord)
    (q lp : List Coord) (hq : q.Nodup) (hqs : ∀ c ∈ q, c ∉ schunks) :
    (l.foldl (enqueueNewStar schunks) (q, lp)).1.Nodup ∧
    (∀ c ∈ (l.foldl (enqueueNewStar schunks) (q, lp)).1, c ∉ schunks) := by
  induction l generalizing q lp with
  | nil => exact ⟨hq, hqs⟩
  | cons c t ih =>
      simp only [List.foldl_cons]
      by_cases hcond : c ∉ schunks ∧ c ∉ q ∧ c ∉ lp
      · rw [show enqueueNewStar schunks (q, lp) c = (q ++ [c], c :: lp) by
          simp [enqueueNewStar, hcond]]
        refine ih (q ++ [c]) (c :: lp) ?_ ?_
        · simp [List.nodup_append, hq, hcond.2.1]
        · intro d hd
          rcases List.mem_append.mp hd with hd | hd
          · exact hqs d hd
          · rw [List.mem_singleton] at hd; subst hd; exact hcond.1
      · rw [show enqueueNewStar schunks (q, lp) c = (q, lp) by
          simp [enqueueNewStar, hcond]]
        exact ih q lp hq hqs

theorem getTerrainChunk_not_mem (c : Coord) (s : EngineState) (h : c ∉ s.chunks) :
    getTerrainChunk c s =
      { s with pending := s.pending.erase c, chunks := c :: s.chunks,
               generated := s.generated + 1 } :=
  if_neg h

theorem dequeueOneTerrain_inv (s : EngineState) (h : FullInv s) :
    FullInv (dequeueOneTerrain s) := by
  obtain ⟨h1, h2, h3, h4, h5, h6⟩ := h
  cases hq : s.queue with
  | nil =>
      have e1 : dequeueOneTerrain s = s := by unfold dequeueOneTerrain; rw [hq]
      rw [e1]
      exact ⟨h1, h2, h3, h4, h5, h6⟩
  | cons c rest =>
      have hcnot : c ∉ s.chunks := h2 c (by simp [hq])
      rw [hq] at h1
      have e1 : dequeueOneTerrain s = getTerrainChunk c { s with queue := rest } := by
        unfold dequeueOneTerrain; rw [hq]
      rw [e1, getTerrainChunk_not_mem c { s with queue := rest } hcnot]
      unfold FullInv
      dsimp only
      refine ⟨h1.of_cons, ?_, h3.erase c, ?_, h5, h6⟩
      · intro d hd
        simp only [List.mem_cons]
        rintro (rfl | hdc)
        · exact (List.nodup_cons.mp h1).1 hd
        · exact h2 d (by simp [hq, hd]) hdc
      · intro d
        rw [List.Nodup.mem_erase_iff h3]
        constructor
        · rintro ⟨hdc, hdp⟩
          have hdq := (h4 d).mp hdp
          rw [hq] at hdq
          rcases List.mem_cons.mp hdq with rfl | hdr
          · exact absurd rfl hdc
          · exact hdr
        · intro hdr
          have hdq : d ∈ s.queue := by rw [hq]; exact List.mem_cons_of_mem c hdr
          refine ⟨?_, (h4 d).mpr hdq⟩
          rintro rfl
          exact (List.nodup_cons.mp h1).1 hdr

theorem processTerrainBatch_inv (n : ℕ) (s : EngineState) (h : FullInv s) :
    FullInv (processTerrainBatch n s) := by
  induction n generalizing s with
  | zero => exact h
  | succ m ih => exact ih _ (dequeueOneTerrain_inv s h)

theorem fullInv_set_ready (s : EngineState) (h : FullInv s) :
    FullInv { s with initState := true, onLoadCount := s.onLoadCount + 1 } := h

theorem generateChunkBatch_inv (P : EngineParams) (s : EngineState) (h : FullInv s) :
    FullInv (generateChunkBatch P s) := by
  unfold generateChunkBatch
  dsimp only
  split
  · exact h
  · split
    · exact fullInv_set_ready _ (processTerrainBatch_inv _ _ h)
    · exact processTerrainBatch_inv _ _ h

theorem getStarChunk_not_mem (c : Coord) (s : EngineState) (h : c ∉ s.starChunks) :
    getStarChunk c s = { s with starChunks := c :: s.starChunks } :=
  if_neg h

theorem dequeueOneStar_inv (s : EngineState) (h : FullInv s) :
    FullInv (dequeueOneStar s) := by
  obtain ⟨h1, h2, h3, h4, h5, h6⟩ := h
  cases hq : s.starQueue with
  | nil =>
      have e1 : dequeueOneStar s = s := by unfold dequeueOneStar; rw [hq]
      rw [e1]
      exact ⟨h1, h2, h3, h4, h5, h6⟩
  | cons c rest =>
      have hcnot : c ∉ s.starChunks := h6 c (by simp [hq])
      rw [hq] at h5
      have e1 : dequeueOneStar s = getStarChunk c { s with starQueue := rest } := by
        unfold dequeueOneStar; rw [hq]
      rw [e1, getStarChunk_not_mem c { s with starQueue := rest } hcnot]
      unfold FullInv
      dsimp only
      refine ⟨h1, h2, h3, h4, h5.of_cons, ?_⟩
      intro d hd
      simp only [List.mem_cons]
      rintro (rfl | hdc)
      · exact (List.nodup_cons.mp h5).1 hd
      · exact h6 d (by simp [hq, hd]) hdc

theorem processStarBatch_inv (n : ℕ) (s : EngineState) (h : FullInv s) :
    FullInv (processStarBatch n s) := by
  induction n generalizing s with
  | zero => exact h
  | succ m ih => exact ih _ (dequeueOneStar_inv s h)

theorem generateStarChunkBatch_inv (P : EngineParams) (s : EngineState) (h : FullInv s) :
    FullInv (generateStarChunkBatch P s) := by
  unfold generateStarChunkBatch
  dsimp only
  split
  · exact h
  · exact processStarBatch_inv _ _ h

theorem updateVisibleChunks_inv (P : EngineParams) (camX camZ : ℤ) (s : EngineState)
    (h : FullInv s) : FullInv (updateVisibleChunks P camX camZ s) := by
  obtain ⟨h1, h2, h3, h4, h5, h6⟩ := h
  have hf := enqueueNew_fold_inv s.chunks (requiredChunks camX camZ P.renderDistance)
    s.queue s.pending h1 h3 h2 h4
  unfold updateVisibleChunks
  dsimp only
  refine ⟨hf.1, ?_, hf.2.1, hf.2.2.2, h5, h6⟩
  intro d hd hdf
  exact hf.2.2.1 d hd (List.mem_filter.mp hdf).1

theorem updateVisibleStarChunks_inv (P : EngineParams) (camX camZ : ℤ) (s : EngineState)
    (h : FullInv s) : FullInv (updateVisibleStarChunks P camX camZ s) := by
  obtain ⟨h1, h2, h3, h4, h5, h6⟩ := h
  have hf := enqueueNewStar_fold_inv s.starChunks (requiredChunks camX camZ P.starRenderDistance)
    s.starQueue [] h5 h6
  unfold updateVisibleStarChunks
  dsimp only
  refine ⟨h1, h2, h3, h4, hf.1, ?_⟩
  intro d hd hdf
  exact hf.2 d hd (List.mem_filter.mp hdf).1

theorem initializeChunkQueue_inv (P : EngineParams) (camX camZ : ℤ) (s : EngineState)
    (h5 : s.starQueue.Nodup) (h6 : ∀ c ∈ s.starQueue, c ∉ s.starChunks) :
    FullInv (initializeChunkQueue P camX camZ s) := by
  have hf := enqueueNew_fold_inv s.chunks
    ((generateSpiralOrder P.renderDistance).map (fun o => (camX + o.1, camZ + o.2)))
    [] [] List.nodup_nil List.nodup_nil (by simp) (by simp)
  unfold initializeChunkQueue
  dsimp only
  exact ⟨hf.1, hf.2.2.1, hf.2.1, hf.2.2.2, h5, h6⟩

theorem initializeStarChunkQueue_inv (P : EngineParams) (camX camZ : ℤ) (s : EngineState)
    (h : FullInv s) : FullInv (initializeStarChunkQueue P camX camZ s) := by
  obtain ⟨h1, h2, h3, h4, _, _⟩ := h
  have hf := enqueueNew_fold_inv s.starChunks
    ((generateSpiralOrder P.starRenderDistance).map (fun o => (camX + o.1, camZ + o.2)))
    [] [] List.nodup_nil List.nodup_nil (by simp) (by simp)
  unfold initializeStarChunkQueue
  dsimp only
  exact ⟨h1, h2, h3, h4, hf.1, hf.2.2.1⟩

theorem restartTerrain_inv (P : EngineParams) (camX camZ : ℤ) (s : EngineState) :
    FullInv (restartTerrain P camX camZ s) := by
  unfold restartTerrain
  dsimp only
  apply initializeStarChunkQueue_inv
  apply initializeChunkQueue_inv
  · exact List.nodup_nil
  · simp

theorem engineStep_inv (P : EngineParams) (s : EngineState) (op : EngineOp)
    (h : FullInv s) : FullInv (engineStep P s op) := by
  cases op with
  | updateVisible camX camZ => exact updateVisibleChunks_inv P camX camZ s h
  | updateVisibleStars camX camZ => exact updateVisibleStarChunks_inv P camX camZ s h
  | generate =>
      show FullInv (if s.queue ≠ [] then generateChunkBatch P s
        else if s.starQueue ≠ [] then generateStarChunkBatch P s else s)
      split
      · exact generateChunkBatch_inv P s h
      · split
        · exact generateStarChunkBatch_inv P s h
        · exact h
  | restart camX camZ => exact restartTerrain_inv P camX camZ s

theorem engineRun_inv (P : EngineParams) (ops : List EngineOp) (s : EngineState)
    (h : FullInv s) : FullInv (engineRun P ops s) := by
  induction ops generalizing s with
  | nil => exact h
  | cons op t ih => exact ih _ (engineStep_inv P s op h)

theorem initialEngineState_inv (P : EngineParams) (camX camZ : ℤ) :
    FullInv (initialEngineState P camX camZ) := by
  unfold initialEngineState
  apply initializeStarChunkQueue_inv
  apply initializeChunkQueue_inv
  · exact List.nodup_nil
  · simp

/-- Parameters of the C4 scenario: `renderDistance = 1`, batch sizes 1,
`initialChunks = 1`. -/
def c4Params : EngineParams :=
  { renderDistance := 1, chunkGenerationBatchSize := 1, initialChunks := 1,
    starRenderDistance := 1, starChunkGenerationBatchSize := 1 }

/-! ## TerrainNoiseGenerator (lines 44-206)

JS numbers are modelled as elements of an arbitrary linear ordered field `K`
with a floor function; the constant `Math.sqrt(3.0)` of the skew/unskew factors
becomes the explicit parameter `sqrt3` (instantiated with `Real.sqrt 3` where
its value matters).  The random permutation table (256 random entries doubled,
indexed up to 511) is modelled as a function `perm : ℕ → ℕ`; `& 255` on the
possibly negative cell coordinate is `% 256` in two's complement, and `% 12`
yields the gradient index.  `Math.round` is `round` (both are
`⌊x + 1/2⌋`). -/

/-- The twelve 3D gradient vectors (source lines 51-64); only the first two
components are used by the 2D dot product. -/
def gradientVectors : List (ℤ × ℤ × ℤ) :=
  [(1, 1, 0), (-1, 1, 0), (1, -1, 0), (-1, -1, 0),
   (1, 0, 1), (-1, 0, 1), (1, 0, -1), (-1, 0, -1),
   (0, 1, 1), (0, -1, 1), (0, 1, -1), (0, -1, -1)]

variable {K : Type} [LinearOrderedField K] [FloorRing K]

/-- `calculateGradientDot` (source lines 81-83). -/
def calculateGradientDot (g : ℤ × ℤ × ℤ) (x y : K) : K :=
  (g.1 : K) * x + (g.2.1 : K) * y

/-- `calculateCornerContribution` (source lines 139-144):
`t = 0.5 − x² − y²`, contribution `0` if `t < 0`, else `t⁴ · dot`. -/
def cornerContribution (g : ℤ × ℤ × ℤ) (x y : K) : K :=
  let t : K := 1/2 - x * x - y * y
  if t < 0 then 0 else t ^ 4 * calculateGradientDot g x y

/-- The cache-miss computation of `generateNoise` (source lines 100-151):
skew/unskew, simplex-triangle selection, three corner contributions, sum scaled
by 70. -/
def generateNoiseRaw (perm : ℕ → ℕ) (sqrt3 : K) (x y : K) : K :=
  let skewFactor : K := (1/2) * (sqrt3 - 1)
  let unskewFactor : K := (3 - sqrt3) / 6
  let skew : K := (x + y) * skewFactor
  let cellX : ℤ := ⌊x + skew⌋
  let cellY : ℤ := ⌊y + skew⌋
  let unskew : K := ((cellX : K) + (cellY : K)) * unskewFactor
  let originX : K := (cellX : K) - unskew
  let originY : K := (cellY : K) - unskew
  let relativeX : K := x - originX
  let relativeY : K := y - originY
  let upper : Bool := decide (relativeY < relativeX)
  let offsetX : ℕ := if upper then 1 else 0
  let offsetY : ℕ := if upper then 0 else 1
  let x1 : K := relativeX - (offsetX : K) + unskewFactor
  let y1 : K := relativeY - (offsetY : K) + unskewFactor
  let x2 : K := relativeX - 1 + 2 * unskewFactor
  let y2 : K := relativeY - 1 + 2 * unskewFactor
  let gridX : ℕ := (cellX % 256).toNat
  let gridY : ℕ := (cellY % 256).toNat
  let gi0 : ℕ := perm ((gridX + perm gridY) % 256) % 12
  let gi1 : ℕ := perm ((gridX + offsetX + perm (gridY + offsetY)) % 256) % 12
  let gi2 : ℕ := perm ((gridX + 1 + perm (gridY + 1)) % 256) % 12
  70 * (cornerContribution (gradientVectors.getD gi0 (0, 0, 0)) relativeX relativeY +
        cornerContribution (gradientVectors.getD gi1 (0, 0, 0)) x1 y1 +
        cornerContribution (gradientVectors.getD gi2 (0, 0, 0)) x2 y2)

/-- Cache keys of `noiseCache`: the source uses the strings
`"round(x·1000),round(y·1000)"` (plain noise) and the same prefix followed by
`"_octaves_persistence_lacunarity"` (terrain noise); both decode uniquely to
these constructors. -/
inductive NoiseKey (K : Type) where
  | plain (a b : ℤ)
  | fbm (a b : ℤ) (octaves : ℕ) (persistence lacunarity : K)
deriving DecidableEq

/-- The `noiseCache` map, as an association list (insertion at the front). -/
abbrev NoiseCache (K : Type) := List (NoiseKey K × K)

/-- `noiseCache.get`/`has` in one lookup. -/
def cacheGet [DecidableEq K] (cache : NoiseCache K) (k : NoiseKey K) : Option K :=
  match cache with
  | [] => none
  | (k2, v) :: rest => if k2 = k then some v else cacheGet rest k

/-- `generateNoise` (source lines 91-157): quantized cache key, cache hit
returns the stored value unchanged, cache miss computes and stores. -/
def generateNoise [DecidableEq K] (perm : ℕ → ℕ) (sqrt3 : K) (cache : NoiseCache K)
    (x y : K) : K × NoiseCache K :=
  let cacheKey : NoiseKey K := .plain (round (x * 1000)) (round (y * 1000))
  match cacheGet cache cacheKey with
  | some v => (v, cache)
  | none =>
      let noise := generateNoiseRaw perm sqrt3 x y
      (noise, (cacheKey, noise) :: cache)

/-- The octave loop of `generateTerrainNoise` (source lines 178-189) over the
uncached noise: accumulates `total` and `maxValue`, decaying amplitude by
`persistence` and growing frequency by `lacunarity`. -/
def fbmAux (perm : ℕ → ℕ) (sqrt3 x y persistence lacunarity : K) :
    ℕ → K → K → K → K → K × K
  | 0, _, _, total, maxValue => (total, maxValue)
  | n + 1, frequency, amplitude, total, maxValue =>
      fbmAux perm sqrt3 x y persistence lacunarity n
        (frequency * lacunarity) (amplitude * persistence)
        (total + generateNoiseRaw perm sqrt3 (x * frequency) (y * frequency) * amplitude)
        (maxValue + amplitude)

/-- The cache-miss computation of `generateTerrainNoise`: the octave loop
followed by the normalization `total / maxValue` (source lines 178-192). -/
def generateTerrainNoiseRaw (perm : ℕ → ℕ) (sqrt3 x y : K) (octaves : ℕ)
    (persistence lacunarity : K) : K :=
  let tm := fbmAux perm sqrt3 x y persistence lacunarity octaves 1 1 0 0
  tm.1 / tm.2

/-- The octave loop threading the shared cache through the inner
`generateNoise` calls. -/
def fbmAuxCached [DecidableEq K] (perm : ℕ → ℕ) (sqrt3 x y persistence lacunarity : K) :
    ℕ → K → K → K → K → NoiseCache K → K × K × NoiseCache K
  | 0, _, _, total, maxValue, cache => (total, maxValue, cache)
  | n + 1, frequency, amplitude, total, maxValue, cache =>
      let r := generateNoise perm sqrt3 cache (x * frequency) (y * frequency)
      fbmAuxCached perm sqrt3 x y persistence lacunarity n
        (frequency * lacunarity) (amplitude * persistence)
        (total + r.1 * amplitude) (maxValue + amplitude) r.2

/-- `generateTerrainNoise` (source lines 163-198): its own quantized cache key
(with octave parameters), cache hit short-circuits, cache miss runs the octave
loop and stores the normalized result. -/
def generateTerrainNoise [DecidableEq K] (perm : ℕ → ℕ) (sqrt3 : K)
    (cache : NoiseCache K) (x y : K) (octaves : ℕ) (persistence lacunarity : K) :
    K × NoiseCache K :=
  let cacheKey : NoiseKey K :=
    .fbm (round (x * 1000)) (round (y * 1000)) octaves persistence lacunarity
  match cacheGet cache cacheKey with
  | some v => (v, cache)
  | none =>
      let tmc := fbmAuxCached perm sqrt3 x y persistence lacunarity octaves 1 1 0 0 cache
      let result := tmc.1 / tmc.2.1
      (result, (cacheKey, result) :: tmc.2.2)

/-- A permutation table whose 256 base entries all came out 0 — a possible
outcome of `Math.floor(Math.random() * 256)` for every entry. -/
def zeroPerm : ℕ → ℕ := fun _ => 0

theorem generateNoiseRaw_zero_zero :
    generateNoiseRaw zeroPerm (Real.sqrt 3) 0 0 = 0 := by
  have hs : Real.sqrt 3 ^ 2 = 3 := Real.sq_sqrt (by norm_num)
  have hnn : (0:ℝ) ≤ Real.sqrt 3 := Real.sqrt_nonneg 3
  have hlo : (17/10:ℝ) < Real.sqrt 3 := by nlinarith
  have hhi : Real.sqrt 3 < (18/10:ℝ) := by nlinarith
  unfold generateNoiseRaw
  norm_num [zeroPerm, gradientVectors]
  have hc0 : cornerContribution ((1:ℤ), (1:ℤ), (0:ℤ)) (0:ℝ) 0 = 0 := by
    norm_num [cornerContribution, calculateGradientDot]
  have hc1 : cornerContribution ((1:ℤ), (1:ℤ), (0:ℤ)) (((3 - Real.sqrt 3)/6 : ℝ))
      (-1 + (3 - Real.sqrt 3)/6) = 0 := by
    have ht : ((1:ℝ)/2 - ((3 - Real.sqrt 3)/6) * ((3 - Real.sqrt 3)/6) -
        (-1 + (3 - Real.sqrt 3)/6) * (-1 + (3 - Real.sqrt 3)/6)) < 0 := by nlinarith
    simp only [cornerContribution]
    rw [if_pos ht]
  have hc2 : cornerContribution ((1:ℤ), (1:ℤ), (0:ℤ)) ((-1 + 2 * ((3 - Real.sqrt 3)/6) : ℝ))
      (-1 + 2 * ((3 - Real.sqrt 3)/6)) = 0 := by
    have ht : ((1:ℝ)/2 - (-1 + 2 * ((3 - Real.sqrt 3)/6)) * (-1 + 2 * ((3 - Real.sqrt 3)/6)) -
        (-1 + 2 * ((3 - Real.sqrt 3)/6)) * (-1 + 2 * ((3 - Real.sqrt 3)/6))) < 0 := by nlinarith
    simp only [cornerContribution]
    rw [if_pos ht]
  rw [hc0, hc1, hc2]
  ring

theorem generateNoiseRaw_near_zero_pos :
    0 < generateNoiseRaw zeroPerm (Real.sqrt 3) (1/2500 : ℝ) 0 := by
  have hs : Real.sqrt 3 ^ 2 = 3 := Real.sq_sqrt (by norm_num)
  have hnn : (0:ℝ) ≤ Real.sqrt 3 := Real.sqrt_nonneg 3
  have hlo : (17/10:ℝ) < Real.sqrt 3 := by nlinarith
  have hhi : Real.sqrt 3 < (18/10:ℝ) := by nlinarith
  have hf1 : ⌊(1/2500 : ℝ) + 1/2500 * (1/2 * (Real.sqrt 3 - 1))⌋ = 0 := by
    rw [Int.floor_eq_zero_iff, Set.mem_Ico]
    constructor <;> nlinarith
  have hf2 : ⌊(1/2500 : ℝ) * (1/2 * (Real.sqrt 3 - 1))⌋ = 0 := by
    rw [Int.floor_eq_zero_iff, Set.mem_Ico]
    constructor <;> nlinarith
  unfold generateNoiseRaw
  norm_num [hf1, hf2, zeroPerm, gradientVectors]
  have hc0 : (0:ℝ) < cornerContribution ((1:ℤ), (1:ℤ), (0:ℤ)) ((1:ℝ)/2500) 0 := by
    norm_num [cornerContribution, calculateGradientDot]
  have hc1 : cornerContribution ((1:ℤ), (1:ℤ), (0:ℤ))
      ((-(2499/2500) + (3 - Real.sqrt 3)/6 : ℝ)) ((3 - Real.sqrt 3)/6) = 0 := by
    have ht : ((1:ℝ)/2 -
        (-(2499/2500) + (3 - Real.sqrt 3)/6) * (-(2499/2500) + (3 - Real.sqrt 3)/6) -
        ((3 - Real.sqrt 3)/6) * ((3 - Real.sqrt 3)/6)) < 0 := by nlinarith
    simp only [cornerContribution]
    rw [if_pos ht]
  have hc2 : cornerContribution ((1:ℤ), (1:ℤ), (0:ℤ))
      ((-(2499/2500) + 2 * ((3 - Real.sqrt 3)/6) : ℝ)) (-1 + 2 * ((3 - Real.sqrt 3)/6)) = 0 := by
    have ht : ((1:ℝ)/2 -
        (-(2499/2500) + 2 * ((3 - Real.sqrt 3)/6)) * (-(2499/2500) + 2 * ((3 - Real.sqrt 3)/6)) -
        (-1 + 2 * ((3 - Real.sqrt 3)/6)) * (-1 + 2 * ((3 - Real.sqrt 3)/6))) < 0 := by nlinarith
    simp only [cornerContribution]
    rw [if_pos ht]
  rw [hc1, hc2]
  simpa using hc0

/-! ## Claim theorems -/

/-- C1 counterexample: `handleTerrainConfigChange` performs no validation: the
mutation `segments := 0` is not rejected — the stored `segments` becomes 0
instead of retaining the previous valid value 30, so the configuration state
does change. -/
theorem c1_counterexample :
    (handleTerrainConfigChange initialSettingsState
        (TerrainProp.segments 0)).terrainConfig.segments = 0 ∧
    initialSettingsState.terrainConfig.segments = 30 ∧
    (handleTerrainConfigChange initialSettingsState
        (TerrainProp.chunkSize 0)).terrainConfig.chunkSize = 0 ∧
    initialSettingsState.terrainConfig.chunkSize = 30 := by
  refine ⟨?_, by decide, ?_, by decide⟩ <;> decide

/-- C1 (amended): a terrain-configuration mutation setting `segments` or
`chunkSize` to a zero or negative value is applied unconditionally (no
configuration-validation error exists): the field is overwritten with the
non-positive value, the quality label becomes "custom", a restart is flagged,
all other configuration fields are kept, and the mutated config is saved. -/
theorem c1_amended_mutation_applied (st : SettingsState) (v : ℚ) (hv : v ≤ 0) :
    handleTerrainConfigChange st (.segments v) =
      { terrainConfig := { st.terrainConfig with segments := v },
        starConfig := st.starConfig,
        currentQuality := "custom", needsRestart := true,
        savedPrefs := some (savePreferences { st.terrainConfig with segments := v }
          st.starConfig "custom") } ∧
    handleTerrainConfigChange st (.chunkSize v) =
      { terrainConfig := { st.terrainConfig with chunkSize := v },
        starConfig := st.starConfig,
        currentQuality := "custom", needsRestart := true,
        savedPrefs := some (savePreferences { st.terrainConfig with chunkSize := v }
          st.starConfig "custom") } := by
  constructor <;>
    simp [handleTerrainConfigChange, setTerrainProp, terrainPropName,
      restartRequiringProps]

/-- Witness for C1 (amended) at `v = 0` on the initial state. -/
theorem c1_amended_mutation_applied_witness :
    (handleTerrainConfigChange initialSettingsState
        (TerrainProp.segments 0)).currentQuality = "custom" ∧
    (handleTerrainConfigChange initialSettingsState
        (TerrainProp.segments 0)).needsRestart = true := by
  have h := (c1_amended_mutation_applied initialSettingsState 0 (le_refl 0)).1
  rw [h]
  exact ⟨rfl, rfl⟩

/-- C2: `generateSpiralOrder renderDistance` has exactly `(2·rd+1)²` entries,
starts with `(0,0)`, is the concatenation of concentric square layers (each
layer being the top, right, bottom, left edges in the source's push order), and
every offset of a farther layer has strictly greater Chebyshev distance from
the origin than every offset of a nearer layer (each layer-`k` offset has
Chebyshev distance exactly `k`). -/
theorem c2_spiral_order_spec (n : ℕ) :
    (generateSpiralOrder n).length = (2 * n + 1) ^ 2 ∧
    (generateSpiralOrder n).head? = some (0, 0) ∧
    generateSpiralOrder n =
      (0, 0) :: (List.range n).flatMap (fun k => spiralLayer (k + 1)) ∧
    (∀ k p, p ∈ spiralLayer (k + 1) → chebDist p = k + 1) ∧
    (∀ j k p q, j < k → p ∈ spiralLayer (j + 1) → q ∈ spiralLayer (k + 1) →
      chebDist p < chebDist q) := by
  refine ⟨generateSpiralOrder_length n, rfl, rfl,
    fun k p hp => chebDist_spiralLayer k p hp, ?_⟩
  intro j k p q hjk hp hq
  rw [chebDist_spiralLayer j p hp, chebDist_spiralLayer k q hq]
  omega

/-- Witness for C2 at `renderDistance = 2` with offsets of layers 1 and 2. -/
theorem c2_spiral_order_spec_witness :
    (generateSpiralOrder 2).length = 25 ∧
    chebDist (0, -1) < chebDist (2, -2) := by
  have h := c2_spiral_order_spec 2
  exact ⟨h.1.trans (by norm_num),
    h.2.2.2.2 0 1 (0, -1) (2, -2) (by decide) (by decide) (by decide)⟩

/-- C3 counterexample: with `updateThreshold = 10`, `chunkSize = 30` and camera
target displaced 11 units on the x axis from 0 to 11, the threshold branch
fires but the terrain chunk coordinate `⌊11/30⌋ = 0` is unchanged, so
`updateVisibleChunks` (the required-set rebuild plus eviction) is invoked zero
times — not exactly once as claimed. -/
theorem c3_counterexample :
    |c3CounterState.targetX - c3CounterState.lastUpdateX| = 11 ∧
    c3CounterState.targetZ = c3CounterState.lastUpdateZ ∧
    (animTick 10 30 50 c3CounterState).terrainUpdates = 0 ∧
    (animTick 10 30 50 c3CounterState).starUpdates = 0 ∧
    (animTick 10 30 50 c3CounterState).lastUpdateX = 11 := by
  refine ⟨by norm_num [c3CounterState], rfl, ?_, ?_, ?_⟩ <;>
    norm_num [animTick, c3CounterState]

/-- C3 (amended): when the displacement since the last chunk update exceeds
`updateThreshold` on either axis, the tick syncs `lastChunkUpdatePosition` to
the target exactly once (an immediately repeated tick with unmoved target does
nothing), and the chunk-visibility recomputation (`updateVisibleChunks`) runs
within that tick if and only if the camera's terrain chunk coordinate changed —
so a displacement that stays inside the current chunk triggers no
recomputation. -/
theorem c3_amended_threshold_tick (updateThreshold chunkSize starChunkSize : ℚ)
    (s : AnimState) (hth : 0 ≤ updateThreshold)
    (hcross : updateThreshold < |s.targetX - s.lastUpdateX| ∨
              updateThreshold < |s.targetZ - s.lastUpdateZ|) :
    (animTick updateThreshold chunkSize starChunkSize s).lastUpdateX = s.targetX ∧
    (animTick updateThreshold chunkSize starChunkSize s).lastUpdateZ = s.targetZ ∧
    (animTick updateThreshold chunkSize starChunkSize s).terrainUpdates =
      s.terrainUpdates +
        (if ⌊s.targetX / chunkSize⌋ ≠ s.lastChunkX ∨ ⌊s.targetZ / chunkSize⌋ ≠ s.lastChunkZ
         then 1 else 0) ∧
    animTick updateThreshold chunkSize starChunkSize
        (animTick updateThreshold chunkSize starChunkSize s) =
      animTick updateThreshold chunkSize starChunkSize s := by
  have key : ∀ t : AnimState, t.targetX = s.targetX → t.targetZ = s.targetZ →
      t.lastUpdateX = s.targetX → t.lastUpdateZ = s.targetZ →
      animTick updateThreshold chunkSize starChunkSize t = t := by
    intro t h1 h2 h3 h4
    simp [animTick, h1, h2, h3, h4, not_lt.mpr hth]
  by_cases hc : ⌊s.targetX / chunkSize⌋ ≠ s.lastChunkX ∨
      ⌊s.targetZ / chunkSize⌋ ≠ s.lastChunkZ <;>
    by_cases hstar : ⌊s.targetX / starChunkSize⌋ ≠ s.lastStarChunkX ∨
        ⌊s.targetZ / starChunkSize⌋ ≠ s.lastStarChunkZ <;>
    refine ⟨?_, ?_, ?_, ?_⟩ <;>
    simp [animTick, hcross, hc, hstar] <;>
    apply key <;> simp [animTick, hcross, hc, hstar]

/-- Witness for C3 (amended): an 11-unit displacement from x=25 to x=36 crosses
the chunk boundary at 30, so the recomputation runs exactly once. -/
theorem c3_amended_threshold_tick_witness :
    (animTick 10 30 50 c3WitState).lastUpdateX = c3WitState.targetX ∧
    (animTick 10 30 50 c3WitState).terrainUpdates = 6 ∧
    animTick 10 30 50 (animTick 10 30 50 c3WitState) = animTick 10 30 50 c3WitState := by
  have h := c3_amended_threshold_tick 10 30 50 c3WitState (by norm_num)
    (Or.inl (by norm_num [c3WitState]))
  refine ⟨h.1, ?_, h.2.2.2⟩
  rw [h.2.2.1]
  norm_num [c3WitState]

/-- C4: the ready/onLoad edge is not one-shot in the code.  The guard
`!isInitialized` inside `generateChunkBatch` reads the `isInitialized` value
captured by the effect closure (`initSnap`), which is not refreshed when
`setIsInitialized(true)` runs; consequently with `initialChunks = 1` and
`batchSize = 1` the first generation tick fires `onLoad` and the second
generation tick fires it again (`onLoadCount = 2`), contradicting the
fire-exactly-once claim. -/
theorem c4_onload_refires :
    (engineRun c4Params [.generate] (initialEngineState c4Params 0 0)).onLoadCount = 1 ∧
    (engineRun c4Params [.generate] (initialEngineState c4Params 0 0)).initState = true ∧
    (engineRun c4Params [.generate] (initialEngineState c4Params 0 0)).generated = 1 ∧
    (engineRun c4Params [.generate, .generate]
        (initialEngineState c4Params 0 0)).onLoadCount = 2 ∧
    (engineRun c4Params [.generate, .generate]
        (initialEngineState c4Params 0 0)).generated = 2 := by
  decide

/-- C5: loading the preferences produced by saving a configuration reproduces
every persisted terrain field, every star field, and the quality name exactly;
the camera fields (`cameraHeight`, `cameraDistance`) always come back as the
engine defaults regardless of their value at save time. -/
theorem c5_roundtrip (t : TerrainConfig) (s : StarConfig) (q : String)
    (st : SettingsState) (hq : q ≠ "") :
    (loadPreferences (savePreferences t s q) st).terrainConfig =
        { t with cameraHeight := DEFAULT_TERRAIN_CONFIG.cameraHeight,
                 cameraDistance := DEFAULT_TERRAIN_CONFIG.cameraDistance } ∧
    (loadPreferences (savePreferences t s q) st).starConfig = s ∧
    (loadPreferences (savePreferences t s q) st).currentQuality = q := by
  refine ⟨?_, rfl, ?_⟩
  · simp [loadPreferences, savePreferences]
  · simp [loadPreferences, savePreferences, hq]

/-- Witness for C5 on the default configuration with quality "medium". -/
theorem c5_roundtrip_witness :
    (loadPreferences (savePreferences DEFAULT_TERRAIN_CONFIG DEFAULT_STAR_CONFIG "medium")
        initialSettingsState).currentQuality = "medium" :=
  (c5_roundtrip DEFAULT_TERRAIN_CONFIG DEFAULT_STAR_CONFIG "medium"
    initialSettingsState (by decide)).2.2

/-- C6: with `renderDistance = 2` the required set around camera chunk `(0,0)`
has exactly 13 coordinates — precisely the offsets with `dx² + dz² ≤ 4` — and
the four corners at squared distance 8 are excluded, so the count is 13 and not
25. -/
theorem c6_required_set_circular :
    (requiredChunks 0 0 2).length = 13 ∧
    (requiredChunks 0 0 2).Nodup ∧
    (∀ p ∈ requiredChunks 0 0 2, p.1 * p.1 + p.2 * p.2 ≤ 4) ∧
    (∀ dx dz : ℤ, dx * dx + dz * dz ≤ 4 → (dx, dz) ∈ requiredChunks 0 0 2) ∧
    ((2:ℤ), (2:ℤ)) ∉ requiredChunks 0 0 2 ∧
    ((2:ℤ), (-2:ℤ)) ∉ requiredChunks 0 0 2 ∧
    ((-2:ℤ), (2:ℤ)) ∉ requiredChunks 0 0 2 ∧
    ((-2:ℤ), (-2:ℤ)) ∉ requiredChunks 0 0 2 ∧
    (requiredChunks 0 0 2).length ≠ 25 := by
  refine ⟨by decide, by decide, by decide, ?_, by decide, by decide, by decide,
    by decide, by decide⟩
  intro dx dz h
  have h1 : dx ≤ 2 := by nlinarith
  have h2 : -2 ≤ dx := by nlinarith
  have h3 : dz ≤ 2 := by nlinarith
  have h4 : -2 ≤ dz := by nlinarith
  interval_cases dx <;> interval_cases dz <;> revert h <;> decide

/-- Witness for C6: the offset `(1,1)` (squared distance 2) is required. -/
theorem c6_required_set_circular_witness :
    ((1:ℤ), (1:ℤ)) ∈ requiredChunks 0 0 2 :=
  c6_required_set_circular.2.2.2.1 1 1 (by norm_num)

/-- C7: fractal terrain noise with `octaves = 1` equals the plain noise sample
exactly, for every coordinate pair and every persistence and lacunarity: the
single octave contributes `sample(x·1, y·1) · 1` and the total amplitude is 1,
so the normalization is the identity.  This holds for the uncached computation
and for the cached entry points starting from an empty cache. -/
theorem c7_fractal_one_octave :
    ∀ (K : Type) [LinearOrderedField K] [FloorRing K] [DecidableEq K]
      (perm : ℕ → ℕ) (sqrt3 x y persistence lacunarity : K),
    generateTerrainNoiseRaw perm sqrt3 x y 1 persistence lacunarity =
      generateNoiseRaw perm sqrt3 x y ∧
    (generateTerrainNoise perm sqrt3 [] x y 1 persistence lacunarity).1 =
      (generateNoise perm sqrt3 [] x y).1 := by
  intro K _ _ _ perm sqrt3 x y persistence lacunarity
  constructor
  · simp [generateTerrainNoiseRaw, fbmAux]
  · simp [generateTerrainNoise, generateNoise, fbmAuxCached, cacheGet]

/-- C8: in every state reachable from the initial engine state by any sequence
of operations (required-set updates, generation ticks, restarts), no coordinate
is simultaneously in a generation queue and in the corresponding live chunk
collection, and no coordinate occurs twice within a queue — for both the
terrain and the star grid. -/
theorem c8_queue_invariants (P : EngineParams) (camX camZ : ℤ) (ops : List EngineOp) :
    (engineRun P ops (initialEngineState P camX camZ)).queue.Nodup ∧
    (∀ c ∈ (engineRun P ops (initialEngineState P camX camZ)).queue,
      c ∉ (engineRun P ops (initialEngineState P camX camZ)).chunks) ∧
    (engineRun P ops (initialEngineState P camX camZ)).starQueue.Nodup ∧
    (∀ c ∈ (engineRun P ops (initialEngineState P camX camZ)).starQueue,
      c ∉ (engineRun P ops (initialEngineState P camX camZ)).starChunks) := by
  have h := engineRun_inv P ops _ (initialEngineState_inv P camX camZ)
  exact ⟨h.1, h.2.1, h.2.2.2.2.1, h.2.2.2.2.2⟩

/-- C9: the noise sampler's result depends on call history.  In general, for
any two inputs whose components quantize to the same cache key (equal
`round(·×1000)`), a first call computes and caches the value at the first
input, and a later call at the second input returns exactly that cached value,
leaving the cache unchanged.  Concretely (over ℝ with the all-zero permutation
table): after `sample(0,0)` the call `sample(1/2500, 0)` returns the cached
value 0, while the uncached formula at `(1/2500, 0)` is nonzero. -/
theorem c9_noise_cache_history :
    (∀ (K : Type) [LinearOrderedField K] [FloorRing K] [DecidableEq K]
       (perm : ℕ → ℕ) (sqrt3 : K) (x1 y1 x2 y2 : K) (cache : NoiseCache K),
      cacheGet cache (NoiseKey.plain (round (x1 * 1000)) (round (y1 * 1000))) = none →
      round (x1 * 1000) = round (x2 * 1000) →
      round (y1 * 1000) = round (y2 * 1000) →
      (generateNoise perm sqrt3 cache x1 y1).1 = generateNoiseRaw perm sqrt3 x1 y1 ∧
      generateNoise perm sqrt3 (generateNoise perm sqrt3 cache x1 y1).2 x2 y2 =
        ((generateNoise perm sqrt3 cache x1 y1).1,
         (generateNoise perm sqrt3 cache x1 y1).2)) ∧
    ((1/2500 : ℝ) ≠ 0 ∧
     round ((0:ℝ) * 1000) = round ((1/2500 : ℝ) * 1000) ∧
     (generateNoise zeroPerm (Real.sqrt 3)
        (generateNoise zeroPerm (Real.sqrt 3) ([] : NoiseCache ℝ) 0 0).2
        (1/2500) 0).1 = 0 ∧
     generateNoiseRaw zeroPerm (Real.sqrt 3) (1/2500 : ℝ) 0 ≠ 0) := by
  have general : ∀ (K : Type) [LinearOrderedField K] [FloorRing K] [DecidableEq K]
      (perm : ℕ → ℕ) (sqrt3 : K) (x1 y1 x2 y2 : K) (cache : NoiseCache K),
      cacheGet cache (NoiseKey.plain (round (x1 * 1000)) (round (y1 * 1000))) = none →
      round (x1 * 1000) = round (x2 * 1000) →
      round (y1 * 1000) = round (y2 * 1000) →
      (generateNoise perm sqrt3 cache x1 y1).1 = generateNoiseRaw perm sqrt3 x1 y1 ∧
      generateNoise perm sqrt3 (generateNoise perm sqrt3 cache x1 y1).2 x2 y2 =
        ((generateNoise perm sqrt3 cache x1 y1).1,
         (generateNoise perm sqrt3 cache x1 y1).2) := by
    intro K _ _ _ perm sqrt3 x1 y1 x2 y2 cache hnone hx hy
    have e1 : generateNoise perm sqrt3 cache x1 y1 =
        (generateNoiseRaw perm sqrt3 x1 y1,
         (NoiseKey.plain (round (x1 * 1000)) (round (y1 * 1000)),
          generateNoiseRaw perm sqrt3 x1 y1) :: cache) := by
      unfold generateNoise
      dsimp only
      rw [hnone]
    rw [e1]
    refine ⟨rfl, ?_⟩
    unfold generateNoise
    dsimp only
    rw [show (NoiseKey.plain (round (x2 * 1000)) (round (y2 * 1000)) : NoiseKey K) =
        NoiseKey.plain (round (x1 * 1000)) (round (y1 * 1000)) by rw [hx, hy]]
    simp [cacheGet]
  have hkey : round ((0:ℝ) * 1000) = round ((1/2500 : ℝ) * 1000) := by
    rw [show ((0:ℝ) * 1000) = 0 by ring, show ((1/2500 : ℝ) * 1000) = 2/5 by norm_num]
    rw [round_eq, round_eq]
    norm_num
  refine ⟨general, by norm_num, hkey, ?_, ?_⟩
  · have h := general ℝ zeroPerm (Real.sqrt 3) 0 0 (1/2500) 0 ([] : NoiseCache ℝ)
      rfl hkey rfl
    rw [congrArg Prod.fst h.2, h.1]
    exact generateNoiseRaw_zero_zero
  · exact (generateNoiseRaw_near_zero_pos).ne'

/-- Witness for C9's general part over ℚ: the keys of `(0,0)` and
`(1/10000, 0)` coincide, so the second call returns the first call's cached
result unchanged. -/
theorem c9_noise_cache_history_witness :
    generateNoise zeroPerm (0:ℚ)
        (generateNoise zeroPerm (0:ℚ) ([] : NoiseCache ℚ) 0 0).2 (1/10000) 0 =
      ((generateNoise zeroPerm (0:ℚ) ([] : NoiseCache ℚ) 0 0).1,
       (generateNoise zeroPerm (0:ℚ) ([] : NoiseCache ℚ) 0 0).2) := by
  refine (c9_noise_cache_history.1 ℚ zeroPerm 0 0 0 (1/10000) 0
    ([] : NoiseCache ℚ) rfl ?_ ?_).2
  · rw [show ((0:ℚ) * 1000) = 0 by ring, show ((1/10000 : ℚ) * 1000) = 1/10 by norm_num]
    rw [round_eq, round_eq]
    norm_num
  · rfl

/-- C10: every terrain parameter mutation — live-apply ones (wireframe,
wireframeOpacity, terrainColor, cameraHeight, cameraDistance) included — writes
preferences whose quality name is "custom", even though the in-memory quality
label is switched to "custom" only for restart-requiring properties; hence
reloading the stored preferences after any live-apply edit yields quality
"custom". -/
theorem c10_save_always_custom (st : SettingsState) (p : TerrainProp)
    (st2 : SettingsState) :
    ((handleTerrainConfigChange st p).savedPrefs =
        some (savePreferences (setTerrainProp st.terrainConfig p)
          st.starConfig "custom")) ∧
    (∀ prefs, (handleTerrainConfigChange st p).savedPrefs = some prefs →
        prefs.currentQuality = "custom" ∧
        (loadPreferences prefs st2).currentQuality = "custom") ∧
    (terrainPropName p ∉ restartRequiringProps →
        (handleTerrainConfigChange st p).currentQuality = st.currentQuality) := by
  refine ⟨rfl, ?_, ?_⟩
  · intro prefs h
    have hp : prefs = savePreferences (setTerrainProp st.terrainConfig p)
        st.starConfig "custom" := by
      simpa [handleTerrainConfigChange] using h.symm
    subst hp
    exact ⟨rfl, by simp [loadPreferences, savePreferences]⟩
  · intro h
    simp [handleTerrainConfigChange, h]

/-- Witness for C10 with the live-apply mutation `wireframe := false` on the
initial state: the in-memory quality stays "medium" but the saved quality is
"custom". -/
theorem c10_save_always_custom_witness :
    (handleTerrainConfigChange initialSettingsState
        (TerrainProp.wireframe false)).currentQuality =
      initialSettingsState.currentQuality ∧
    (savePreferences (setTerrainProp initialSettingsState.terrainConfig
        (TerrainProp.wireframe false)) initialSettingsState.starConfig
        "custom").currentQuality = "custom" := by
  refine ⟨(c10_save_always_custom initialSettingsState (TerrainProp.wireframe false)
    initialSettingsState).2.2 (by decide), ?_⟩
  exact ((c10_save_always_custom initialSettingsState (TerrainProp.wireframe false)
    initialSettingsState).2.1 _
    (c10_save_always_custom initialSettingsState (TerrainProp.wireframe false)
      initialSettingsState).1).1

end TerrainBG
